import Mathlib

/-!
Verification of the dual-resource metering core of `primitives/evm/src/lib.rs`:
the `WeightInfo` meter (optional per-dimension limits with checked consume and
saturating refund) and the `weight_per_gas` calibration function.

Machine integers are modelled as `Nat` with explicit `u64` bounds where
overflow matters.  Rust's `&mut self -> Result<(), E>` methods are modelled as
functions returning the result paired with the post-state; an early `?` return
leaves the state unchanged, exactly as in Rust.
-/

namespace Frontier

/-- Rust `u64::MAX = 2^64 - 1`. -/
def U64MAX : Nat := 18446744073709551615

/-- Rust `u64::checked_add`: `some (a + b)` unless the sum overflows `u64`. -/
def checkedAddU64 (a b : Nat) : Option Nat :=
  if a + b ≤ U64MAX then some (a + b) else none

/-- Rust `u64::saturating_mul`. -/
def satMulU64 (a b : Nat) : Nat := min (a * b) U64MAX

instance {e a : Type} [DecidableEq e] [DecidableEq a] : DecidableEq (Except e a) := fun x y =>
  match x, y with
  | .ok u, .ok v => if h : u = v then .isTrue (by simp [h]) else .isFalse (by simp [h])
  | .error u, .error v => if h : u = v then .isTrue (by simp [h]) else .isFalse (by simp [h])
  | .ok _, .error _ => .isFalse (by simp)
  | .error _, .ok _ => .isFalse (by simp)

/-- The only `evm::ExitError` variant the metering code produces. -/
inductive ExitError where
  | OutOfGas
deriving DecidableEq, Repr

/-- The two observable fields of `frame_support`'s `Weight`
(`ref_time` and `proof_size`, both `u64`). -/
structure Weight where
  ref_time : Nat
  proof_size : Nat
deriving DecidableEq, Repr

/-- Struct `WeightInfo` from `primitives/evm/src/lib.rs`. -/
structure WeightInfo where
  ref_time_limit : Option Nat
  proof_size_limit : Option Nat
  ref_time_usage : Option Nat
  proof_size_usage : Option Nat
deriving DecidableEq, Repr

namespace WeightInfo

/-- Constructor `WeightInfo::new_from_weight_limit`.  The three guarded match arms of the
Rust `match` are translated in order. -/
def new_from_weight_limit (weight_limit : Option Weight) :
    Except String (Option WeightInfo) :=
  match weight_limit with
  | none => .ok none
  | some wl =>
    if 0 < wl.ref_time ∧ 0 < wl.proof_size then
      .ok (some { ref_time_limit := some wl.ref_time
                  proof_size_limit := some wl.proof_size
                  ref_time_usage := some 0
                  proof_size_usage := some 0 })
    else if 0 < wl.ref_time then
      .ok (some { ref_time_limit := some wl.ref_time
                  proof_size_limit := none
                  ref_time_usage := some 0
                  proof_size_usage := none })
    else if 0 < wl.proof_size then
      .ok (some { ref_time_limit := none
                  proof_size_limit := some wl.proof_size
                  ref_time_usage := none
                  proof_size_usage := some 0 })
    else
      .error "must provide Some valid weight limit or None"

/-- Helper `WeightInfo::try_consume`: checked add, then limit check. -/
def try_consume (cost limit usage : Nat) : Except ExitError Nat :=
  match checkedAddU64 usage cost with
  | none => .error .OutOfGas
  | some usage =>
    if limit < usage then .error .OutOfGas else .ok usage

/-- Method `WeightInfo::try_record_ref_time_or_fail` as state transformer:
`(result, post-state)`.  On any error the state is returned unchanged, as the
Rust early return leaves the receiver untouched. -/
def try_record_ref_time_or_fail (w : WeightInfo) (cost : Nat) :
    Except ExitError Unit × WeightInfo :=
  match w.ref_time_usage, w.ref_time_limit with
  | some ref_time_usage, some ref_time_limit =>
    match try_consume cost ref_time_limit ref_time_usage with
    | .error e => (.error e, w)
    | .ok ref_time_usage =>
      if ref_time_limit < ref_time_usage then (.error .OutOfGas, w)
      else (.ok (), { w with ref_time_usage := some ref_time_usage })
  | _, _ => (.ok (), w)

/-- Method `WeightInfo::try_record_proof_size_or_fail`, symmetric to the ref-time
variant. -/
def try_record_proof_size_or_fail (w : WeightInfo) (cost : Nat) :
    Except ExitError Unit × WeightInfo :=
  match w.proof_size_usage, w.proof_size_limit with
  | some proof_size_usage, some proof_size_limit =>
    match try_consume cost proof_size_limit proof_size_usage with
    | .error e => (.error e, w)
    | .ok proof_size_usage =>
      if proof_size_limit < proof_size_usage then (.error .OutOfGas, w)
      else (.ok (), { w with proof_size_usage := some proof_size_usage })
  | _, _ => (.ok (), w)

/-- Method `WeightInfo::refund_proof_size`: saturating subtraction on the usage
(`Nat` subtraction is exactly `u64::saturating_sub` on in-range values). -/
def refund_proof_size (w : WeightInfo) (amount : Nat) : WeightInfo :=
  match w.proof_size_usage with
  | some proof_size_usage =>
    { w with proof_size_usage := some (proof_size_usage - amount) }
  | none => w

/-- Method `WeightInfo::refund_ref_time`. -/
def refund_ref_time (w : WeightInfo) (amount : Nat) : WeightInfo :=
  match w.ref_time_usage with
  | some ref_time_usage =>
    { w with ref_time_usage := some (ref_time_usage - amount) }
  | none => w

end WeightInfo

/-- One call against the meter, for reasoning about call sequences. -/
inductive MeterOp where
  | consumeRefTime (cost : Nat)
  | consumeProofSize (cost : Nat)
  | refundRefTime (amount : Nat)
  | refundProofSize (amount : Nat)
deriving DecidableEq, Repr

/-- Post-state of one meter call (a failed consume leaves the state as is). -/
def applyOp (w : WeightInfo) : MeterOp → WeightInfo
  | .consumeRefTime c => (w.try_record_ref_time_or_fail c).2
  | .consumeProofSize c => (w.try_record_proof_size_or_fail c).2
  | .refundRefTime a => w.refund_ref_time a
  | .refundProofSize a => w.refund_proof_size a

/-- Post-state of a sequence of meter calls. -/
def applyOps (w : WeightInfo) (ops : List MeterOp) : WeightInfo :=
  ops.foldl applyOp w

/-- One dimension is well-formed: limit and usage both absent, or both present
with usage within the limit. -/
def dimInv (limit usage : Option Nat) : Bool :=
  match limit, usage with
  | some l, some u => u ≤ l
  | none, none => true
  | _, _ => false

/-- Both dimensions of the meter are well-formed. -/
def meterInv (w : WeightInfo) : Bool :=
  dimInv w.ref_time_limit w.ref_time_usage
    && dimInv w.proof_size_limit w.proof_size_usage

/-- Constant `Perbill::ACCURACY = 10^9` (parts per billion). -/
def PERBILL : Nat := 1000000000

/-- Type `sp_runtime::Perbill`: a fraction stored as parts per billion.  Every
public constructor clamps the parts to at most `PERBILL`. -/
structure Perbill where
  parts : Nat
deriving DecidableEq, Repr

/-- Constructor `Perbill::from_parts`, which clamps at `ACCURACY`. -/
def Perbill.from_parts (p : Nat) : Perbill := ⟨min p PERBILL⟩

/-- Constructor `Perbill::from_percent x = from_parts (min x 100 * (ACCURACY / 100))`. -/
def Perbill.from_percent (x : Nat) : Perbill := ⟨min x 100 * 10000000⟩

/-- Multiplication `impl Mul<u64> for Perbill` from `sp_arithmetic`: the
overflow-free product
`(b / ACCURACY) * parts + correction`, where the correction term is
`(b % ACCURACY) * parts / ACCURACY` rounded to the nearest integer, rounding
half down (`Rounding::NearestPrefDown` in `rational_mul_correction`). -/
def Perbill.mulU64 (p : Perbill) (b : Nat) : Nat :=
  let rem_mul := (b % PERBILL) * p.parts
  let correction :=
    rem_mul / PERBILL + (if PERBILL / 2 < rem_mul % PERBILL then 1 else 0)
  (b / PERBILL) * p.parts + correction

/-- Constant `frame_support::weights::constants::WEIGHT_REF_TIME_PER_MILLIS = 10^9`
(ref-time is measured in picoseconds). -/
def WEIGHT_REF_TIME_PER_MILLIS : Nat := 1000000000

/-- How a call of `weight_per_gas` can abort instead of returning. -/
inductive PanicKind where
  | divisionByZero
  | assertionFailure
deriving DecidableEq, Repr

/-- Function `weight_per_gas` from `primitives/evm/src/lib.rs`.  A `u64`
`saturating_div` panics on a zero divisor; the `assert!` on the result is the
other way the Rust function can abort. -/
def weight_per_gas (block_gas_limit : Nat) (txn_ratio : Perbill)
    (weight_millis_per_block : Nat) : Except PanicKind Nat :=
  let weight_per_block := satMulU64 WEIGHT_REF_TIME_PER_MILLIS weight_millis_per_block
  if block_gas_limit = 0 then .error .divisionByZero
  else
    let wpg := txn_ratio.mulU64 weight_per_block / block_gas_limit
    if 1 ≤ wpg then .ok wpg else .error .assertionFailure

/-- Variant of the calibration algorithm with the fraction applied rounding
toward zero (floor) instead, stated for comparison with `weight_per_gas`. -/
def weight_per_gas_floor_spec (block_gas_limit : Nat) (txn_ratio : Perbill)
    (weight_millis_per_block : Nat) : Except PanicKind Nat :=
  let weight_per_block := satMulU64 WEIGHT_REF_TIME_PER_MILLIS weight_millis_per_block
  if block_gas_limit = 0 then .error .divisionByZero
  else
    let wpg := txn_ratio.parts * weight_per_block / PERBILL / block_gas_limit
    if 1 ≤ wpg then .ok wpg else .error .assertionFailure

/-- The calibration algorithm with the fraction applied rounding to the
nearest integer, half rounded down: the closed form the code is shown to
implement. -/
def weight_per_gas_nearest_spec (block_gas_limit : Nat) (txn_ratio : Perbill)
    (weight_millis_per_block : Nat) : Except PanicKind Nat :=
  let weight_per_block := satMulU64 WEIGHT_REF_TIME_PER_MILLIS weight_millis_per_block
  if block_gas_limit = 0 then .error .divisionByZero
  else
    let reserved := txn_ratio.parts * weight_per_block / PERBILL
      + (if PERBILL / 2 < txn_ratio.parts * weight_per_block % PERBILL then 1 else 0)
    let wpg := reserved / block_gas_limit
    if 1 ≤ wpg then .ok wpg else .error .assertionFailure

/-! ## Helper lemmas -/

/-- Closed form of `try_consume`: it fails exactly on `u64` overflow or on
exceeding the limit, and otherwise returns the sum. -/
lemma try_consume_eq (c l u : Nat) :
    WeightInfo.try_consume c l u =
      if U64MAX < u + c ∨ l < u + c then .error .OutOfGas
      else .ok (u + c) := by
  unfold WeightInfo.try_consume checkedAddU64
  by_cases h1 : u + c ≤ U64MAX
  · simp only [if_pos h1]
    by_cases h2 : l < u + c
    · simp [h2, Nat.not_lt.mpr h1]
    · simp [h2, Nat.not_lt.mpr h1]
  · simp only [if_neg h1]
    simp [Nat.not_le.mp h1]

/-! ## Claim theorems -/

/-- C2: `weight_per_gas` is a pure (hence deterministic) function and, with
`WEIGHT_REF_TIME_PER_MILLIS` as the time-units-per-millisecond constant,
maps the three calibration test inputs to 25000, 20000 and 1. -/
theorem weight_per_gas_calibration_values :
    (∀ (cap : Nat) (r : Perbill) (ms : Nat),
      weight_per_gas cap r ms = weight_per_gas cap r ms) ∧
    weight_per_gas 15000000 (Perbill.from_percent 75) 500 = .ok 25000 ∧
    weight_per_gas 75000000 (Perbill.from_percent 75) 2000 = .ok 20000 ∧
    weight_per_gas 1500000000000 (Perbill.from_percent 75) 2000 = .ok 1 :=
  ⟨fun _ _ _ => rfl, by decide, by decide, by decide⟩

/-- C3: `weight_per_gas` never returns a value below 1: whenever the computed
ratio is 0 it aborts through the assertion instead of returning, and a zero
capacity aborts through the division panic. -/
theorem weight_per_gas_never_below_one (cap : Nat) (r : Perbill) (ms : Nat) :
    (∀ v, weight_per_gas cap r ms = .ok v → 1 ≤ v) ∧
    (cap ≠ 0 →
      r.mulU64 (satMulU64 WEIGHT_REF_TIME_PER_MILLIS ms) / cap = 0 →
      weight_per_gas cap r ms = .error .assertionFailure) ∧
    (cap = 0 → weight_per_gas cap r ms = .error .divisionByZero) := by
  refine ⟨?_, ?_, ?_⟩
  · intro v hv
    unfold weight_per_gas at hv
    by_cases h0 : cap = 0
    · simp [h0] at hv
    · simp only [if_neg h0] at hv
      by_cases h1 : 1 ≤ r.mulU64 (satMulU64 WEIGHT_REF_TIME_PER_MILLIS ms) / cap
      · simp only [if_pos h1, Except.ok.injEq] at hv
        omega
      · simp [if_neg h1] at hv
  · intro h0 hz
    unfold weight_per_gas
    simp [h0, hz]
  · intro h0
    unfold weight_per_gas
    simp [h0]

/-- Witness for C3 at a concrete miscalibrated input: a huge gas capacity on
a small time budget makes the computed ratio 0 and the call abort. -/
theorem weight_per_gas_never_below_one_witness :
    weight_per_gas 10000000000000 (Perbill.from_percent 75) 1 =
      .error .assertionFailure :=
  (weight_per_gas_never_below_one 10000000000000 (Perbill.from_percent 75) 1).2.1
    (by decide) (by decide)

/-- C6: `new_from_weight_limit` maps `none` to no meter, rejects a limit with
both dimensions zero, and otherwise tracks exactly the strictly positive
dimensions with usage initialized to 0. -/
theorem new_from_weight_limit_spec :
    WeightInfo.new_from_weight_limit none = .ok none ∧
    (∀ rt ps : Nat, rt = 0 → ps = 0 →
      WeightInfo.new_from_weight_limit (some ⟨rt, ps⟩) =
        .error "must provide Some valid weight limit or None") ∧
    (∀ rt ps : Nat, 0 < rt → 0 < ps →
      WeightInfo.new_from_weight_limit (some ⟨rt, ps⟩) =
        .ok (some ⟨some rt, some ps, some 0, some 0⟩)) ∧
    (∀ rt : Nat, 0 < rt →
      WeightInfo.new_from_weight_limit (some ⟨rt, 0⟩) =
        .ok (some ⟨some rt, none, some 0, none⟩)) ∧
    (∀ ps : Nat, 0 < ps →
      WeightInfo.new_from_weight_limit (some ⟨0, ps⟩) =
        .ok (some ⟨none, some ps, none, some 0⟩)) := by
  refine ⟨rfl, ?_, ?_, ?_, ?_⟩
  · intro rt ps h1 h2
    simp [WeightInfo.new_from_weight_limit, h1, h2]
  · intro rt ps h1 h2
    simp [WeightInfo.new_from_weight_limit, h1, h2]
  · intro rt h1
    simp [WeightInfo.new_from_weight_limit, h1]
  · intro ps h1
    simp [WeightInfo.new_from_weight_limit, h1]

/-- Witness for C6: a limit that is positive only in ref-time yields a meter
tracking only the ref-time dimension. -/
theorem new_from_weight_limit_spec_witness :
    WeightInfo.new_from_weight_limit (some ⟨5, 0⟩) =
      .ok (some ⟨some 5, none, some 0, none⟩) :=
  new_from_weight_limit_spec.2.2.2.1 5 (by decide)

/-- C7: on a dimension with stored usage the refunds perform saturating
subtraction (flooring at 0, so over-refunding yields exactly 0) and never
fail; on a dimension without stored usage they are no-ops. -/
theorem refund_saturating_spec (w : WeightInfo) (amount : Nat) :
    (∀ u, w.ref_time_usage = some u →
      (w.refund_ref_time amount).ref_time_usage = some (u - amount) ∧
      (u ≤ amount → (w.refund_ref_time amount).ref_time_usage = some 0)) ∧
    (w.ref_time_usage = none → w.refund_ref_time amount = w) ∧
    (∀ u, w.proof_size_usage = some u →
      (w.refund_proof_size amount).proof_size_usage = some (u - amount) ∧
      (u ≤ amount → (w.refund_proof_size amount).proof_size_usage = some 0)) ∧
    (w.proof_size_usage = none → w.refund_proof_size amount = w) := by
  refine ⟨?_, ?_, ?_, ?_⟩
  · intro u hu
    constructor
    · simp [WeightInfo.refund_ref_time, hu]
    · intro hle
      simp [WeightInfo.refund_ref_time, hu, Nat.sub_eq_zero_of_le hle]
  · intro hu
    simp [WeightInfo.refund_ref_time, hu]
  · intro u hu
    constructor
    · simp [WeightInfo.refund_proof_size, hu]
    · intro hle
      simp [WeightInfo.refund_proof_size, hu, Nat.sub_eq_zero_of_le hle]
  · intro hu
    simp [WeightInfo.refund_proof_size, hu]

/-- Witness for C7: refunding 7 against a stored usage of 5 floors at 0. -/
theorem refund_saturating_spec_witness :
    (WeightInfo.refund_ref_time ⟨some 10, none, some 5, none⟩ 7).ref_time_usage
      = some 0 :=
  ((refund_saturating_spec ⟨some 10, none, some 5, none⟩ 7).1 5 rfl).2 (by decide)

/-- C8: on an untracked dimension (limit and usage both absent) a consume of
any cost up to `u64::MAX` succeeds as a no-op and the usage stays absent. -/
theorem untracked_consume_noop (w : WeightInfo) (c : Nat) (_hc : c ≤ U64MAX) :
    (w.ref_time_usage = none → w.ref_time_limit = none →
      w.try_record_ref_time_or_fail c = (.ok (), w)) ∧
    (w.proof_size_usage = none → w.proof_size_limit = none →
      w.try_record_proof_size_or_fail c = (.ok (), w)) := by
  constructor
  · intro hu hl
    simp [WeightInfo.try_record_ref_time_or_fail, hu]
  · intro hu hl
    simp [WeightInfo.try_record_proof_size_or_fail, hu]

/-- Witness for C8: the maximal cost is a no-op on a fully untracked meter. -/
theorem untracked_consume_noop_witness :
    WeightInfo.try_record_ref_time_or_fail ⟨none, none, none, none⟩ U64MAX =
      (.ok (), ⟨none, none, none, none⟩) :=
  (untracked_consume_noop ⟨none, none, none, none⟩ U64MAX (Nat.le_refl _)).1 rfl rfl

/-- C1: on a tracked dimension a consume of cost `c` fails exactly when
`usage + c` overflows `u64` or exceeds the limit; a failed call leaves the
meter unchanged; a call whose sum equals the limit succeeds and commits. -/
theorem tracked_consume_semantics (w : WeightInfo) (c u l : Nat)
    (hl : l ≤ U64MAX) :
    (w.ref_time_usage = some u → w.ref_time_limit = some l →
      (((w.try_record_ref_time_or_fail c).1 = .error .OutOfGas) ↔
        (U64MAX < u + c ∨ l < u + c)) ∧
      ((w.try_record_ref_time_or_fail c).1 = .error .OutOfGas →
        (w.try_record_ref_time_or_fail c).2 = w) ∧
      (u + c = l →
        w.try_record_ref_time_or_fail c =
          (.ok (), { w with ref_time_usage := some l }))) ∧
    (w.proof_size_usage = some u → w.proof_size_limit = some l →
      (((w.try_record_proof_size_or_fail c).1 = .error .OutOfGas) ↔
        (U64MAX < u + c ∨ l < u + c)) ∧
      ((w.try_record_proof_size_or_fail c).1 = .error .OutOfGas →
        (w.try_record_proof_size_or_fail c).2 = w) ∧
      (u + c = l →
        w.try_record_proof_size_or_fail c =
          (.ok (), { w with proof_size_usage := some l }))) := by
  constructor
  · intro hu hlim
    have he : w.try_record_ref_time_or_fail c =
        if U64MAX < u + c ∨ l < u + c then (.error .OutOfGas, w)
        else (.ok (), { w with ref_time_usage := some (u + c) }) := by
      unfold WeightInfo.try_record_ref_time_or_fail
      rw [hu, hlim]
      simp only [try_consume_eq]
      by_cases h : U64MAX < u + c ∨ l < u + c
      · simp [h]
      · have h1 : ¬ U64MAX < u + c := fun hx => h (Or.inl hx)
        have h2 : ¬ l < u + c := fun hx => h (Or.inr hx)
        simp [h1, h2]
    by_cases h : U64MAX < u + c ∨ l < u + c
    · rw [he]
      simp only [if_pos h]
      refine ⟨?_, ?_, ?_⟩
      · simp [h]
      · intro hx
        trivial
      · intro hsum
        exact absurd h (by omega)
    · rw [he]
      simp only [if_neg h]
      refine ⟨?_, ?_, ?_⟩
      · simp [h]
      · intro hx
        simp at hx
      · intro hsum
        rw [hsum]
  · intro hu hlim
    have he : w.try_record_proof_size_or_fail c =
        if U64MAX < u + c ∨ l < u + c then (.error .OutOfGas, w)
        else (.ok (), { w with proof_size_usage := some (u + c) }) := by
      unfold WeightInfo.try_record_proof_size_or_fail
      rw [hu, hlim]
      simp only [try_consume_eq]
      by_cases h : U64MAX < u + c ∨ l < u + c
      · simp [h]
      · have h1 : ¬ U64MAX < u + c := fun hx => h (Or.inl hx)
        have h2 : ¬ l < u + c := fun hx => h (Or.inr hx)
        simp [h1, h2]
    by_cases h : U64MAX < u + c ∨ l < u + c
    · rw [he]
      simp only [if_pos h]
      refine ⟨?_, ?_, ?_⟩
      · simp [h]
      · intro hx
        trivial
      · intro hsum
        exact absurd h (by omega)
    · rw [he]
      simp only [if_neg h]
      refine ⟨?_, ?_, ?_⟩
      · simp [h]
      · intro hx
        simp at hx
      · intro hsum
        rw [hsum]

/-- Witness for C1: with usage 5 and limit 20, consuming 15 lands exactly on
the limit and commits. -/
theorem tracked_consume_semantics_witness :
    WeightInfo.try_record_ref_time_or_fail ⟨some 20, some 30, some 5, some 0⟩ 15 =
      (.ok (), ⟨some 20, some 30, some 20, some 0⟩) :=
  ((tracked_consume_semantics ⟨some 20, some 30, some 5, some 0⟩ 15 5 20
    (by decide)).1 rfl rfl).2.2 (by decide)

/-- C9: each consume and refund touches only its own dimension usage field:
the other dimension and both limit fields are left unchanged by all four
operations. -/
theorem meter_ops_frame (w : WeightInfo) (c : Nat) :
    ((w.try_record_ref_time_or_fail c).2.ref_time_limit = w.ref_time_limit ∧
     (w.try_record_ref_time_or_fail c).2.proof_size_limit = w.proof_size_limit ∧
     (w.try_record_ref_time_or_fail c).2.proof_size_usage = w.proof_size_usage) ∧
    ((w.try_record_proof_size_or_fail c).2.ref_time_limit = w.ref_time_limit ∧
     (w.try_record_proof_size_or_fail c).2.proof_size_limit = w.proof_size_limit ∧
     (w.try_record_proof_size_or_fail c).2.ref_time_usage = w.ref_time_usage) ∧
    ((w.refund_ref_time c).ref_time_limit = w.ref_time_limit ∧
     (w.refund_ref_time c).proof_size_limit = w.proof_size_limit ∧
     (w.refund_ref_time c).proof_size_usage = w.proof_size_usage) ∧
    ((w.refund_proof_size c).ref_time_limit = w.ref_time_limit ∧
     (w.refund_proof_size c).proof_size_limit = w.proof_size_limit ∧
     (w.refund_proof_size c).ref_time_usage = w.ref_time_usage) := by
  refine ⟨?_, ?_, ?_, ?_⟩
  · unfold WeightInfo.try_record_ref_time_or_fail
    rcases hu : w.ref_time_usage with _ | u
    · simp
    · rcases hl : w.ref_time_limit with _ | l
      · simp [hl]
      · cases he : WeightInfo.try_consume c l u with
        | error e => simp [he, hl]
        | ok v => by_cases h : l < v <;> simp [he, h, hl]
  · unfold WeightInfo.try_record_proof_size_or_fail
    rcases hu : w.proof_size_usage with _ | u
    · simp
    · rcases hl : w.proof_size_limit with _ | l
      · simp [hl]
      · cases he : WeightInfo.try_consume c l u with
        | error e => simp [he, hl]
        | ok v => by_cases h : l < v <;> simp [he, h, hl]
  · unfold WeightInfo.refund_ref_time
    rcases hu : w.ref_time_usage with _ | u <;> simp
  · unfold WeightInfo.refund_proof_size
    rcases hu : w.proof_size_usage with _ | u <;> simp

/-- C10: on a half-configured dimension with usage present but limit absent,
a consume of any cost is a successful no-op (the dimension counts as
untracked) while a refund still decrements the stored usage. -/
theorem half_configured_consume_refund_disagree (w : WeightInfo)
    (u c a : Nat) :
    (w.ref_time_usage = some u → w.ref_time_limit = none →
      w.try_record_ref_time_or_fail c = (.ok (), w) ∧
      (w.refund_ref_time a).ref_time_usage = some (u - a)) ∧
    (w.proof_size_usage = some u → w.proof_size_limit = none →
      w.try_record_proof_size_or_fail c = (.ok (), w) ∧
      (w.refund_proof_size a).proof_size_usage = some (u - a)) := by
  constructor
  · intro hu hl
    constructor
    · unfold WeightInfo.try_record_ref_time_or_fail
      rw [hu, hl]
    · simp [WeightInfo.refund_ref_time, hu]
  · intro hu hl
    constructor
    · unfold WeightInfo.try_record_proof_size_or_fail
      rw [hu, hl]
    · simp [WeightInfo.refund_proof_size, hu]

/-- Witness for C10: usage 10 without a limit ignores a maximal consume but
still honours a refund of 4. -/
theorem half_configured_consume_refund_disagree_witness :
    WeightInfo.try_record_ref_time_or_fail ⟨none, none, some 10, none⟩ U64MAX =
        (.ok (), ⟨none, none, some 10, none⟩) ∧
      (WeightInfo.refund_ref_time ⟨none, none, some 10, none⟩ 4).ref_time_usage
        = some 6 :=
  (half_configured_consume_refund_disagree ⟨none, none, some 10, none⟩
    10 U64MAX 4).1 rfl rfl

/-- Closed form of the `Perbill` multiplication: the exact rational product
rounded to the nearest integer, rounding half down. -/
lemma Perbill.mulU64_eq_nearest (p : Perbill) (b : Nat) :
    p.mulU64 b = p.parts * b / PERBILL
      + (if PERBILL / 2 < p.parts * b % PERBILL then 1 else 0) := by
  have hM : 0 < PERBILL := by decide
  have hb : p.parts * b
      = PERBILL * (b / PERBILL * p.parts) + b % PERBILL * p.parts := by
    conv_lhs => rw [← Nat.div_add_mod b PERBILL]
    ring
  simp only [Perbill.mulU64]
  rw [hb, Nat.mul_add_div hM, Nat.mul_add_mod]
  omega

/-- Counterexample to C4: when the saturating multiply saturates, the
fraction is applied rounding up, not toward zero.  At capacity 18446744074,
ratio `from_parts 1` and 18446744074 ms per block the code returns 1 while
the floor-rounding algorithm of the claim would compute ratio 0 and abort on
the assertion. -/
theorem weight_per_gas_floor_counterexample :
    weight_per_gas 18446744074 (Perbill.from_parts 1) 18446744074 = .ok 1 ∧
    (Perbill.from_parts 1).mulU64
        (satMulU64 WEIGHT_REF_TIME_PER_MILLIS 18446744074) ≠
      (Perbill.from_parts 1).parts *
        satMulU64 WEIGHT_REF_TIME_PER_MILLIS 18446744074 / PERBILL ∧
    weight_per_gas_floor_spec 18446744074 (Perbill.from_parts 1) 18446744074 =
      .error .assertionFailure := by
  refine ⟨by decide, by decide, by decide⟩

/-- C4 as amended: `weight_per_gas` computes the saturating product of
`WEIGHT_REF_TIME_PER_MILLIS` and the milliseconds per block, applies the
fraction rounding to the nearest integer with ties rounded down (not toward
zero), and floor-divides the result by the capacity. -/
theorem weight_per_gas_algorithm (cap : Nat) (r : Perbill) (ms : Nat) :
    weight_per_gas cap r ms = weight_per_gas_nearest_spec cap r ms := by
  simp only [weight_per_gas, weight_per_gas_nearest_spec,
    Perbill.mulU64_eq_nearest]

/-- Meter construction establishes the per-dimension invariants. -/
lemma meterInv_new (owl : Option Weight) (w0 : WeightInfo)
    (h : WeightInfo.new_from_weight_limit owl = .ok (some w0)) :
    meterInv w0 = true := by
  rcases owl with _ | wl
  · simp [WeightInfo.new_from_weight_limit] at h
  · unfold WeightInfo.new_from_weight_limit at h
    by_cases h1 : 0 < wl.ref_time ∧ 0 < wl.proof_size
    · simp only [if_pos h1, Except.ok.injEq, Option.some.injEq] at h
      subst h
      simp [meterInv, dimInv]
    · simp only [if_neg h1] at h
      by_cases h2 : 0 < wl.ref_time
      · simp only [if_pos h2, Except.ok.injEq, Option.some.injEq] at h
        subst h
        simp [meterInv, dimInv]
      · simp only [if_neg h2] at h
        by_cases h3 : 0 < wl.proof_size
        · simp only [if_pos h3, Except.ok.injEq, Option.some.injEq] at h
          subst h
          simp [meterInv, dimInv]
        · simp only [if_neg h3] at h
          cases h

/-- Every single meter call preserves the per-dimension invariants. -/
lemma meterInv_applyOp (w : WeightInfo) (op : MeterOp)
    (h : meterInv w = true) : meterInv (applyOp w op) = true := by
  cases op with
  | consumeRefTime c =>
    unfold applyOp WeightInfo.try_record_ref_time_or_fail
    rcases hu : w.ref_time_usage with _ | u
    · simpa using h
    · rcases hl : w.ref_time_limit with _ | l
      · simpa using h
      · cases he : WeightInfo.try_consume c l u with
        | error e => simpa [he] using h
        | ok v =>
          by_cases hv : l < v
          · simpa [he, hv] using h
          · simp only [he, hv, if_false]
            unfold meterInv dimInv at h ⊢
            simp only [hu, hl] at h
            simp only [Bool.and_eq_true, decide_eq_true_eq] at h ⊢
            exact ⟨Nat.not_lt.mp hv, h.2⟩
  | consumeProofSize c =>
    unfold applyOp WeightInfo.try_record_proof_size_or_fail
    rcases hu : w.proof_size_usage with _ | u
    · simpa using h
    · rcases hl : w.proof_size_limit with _ | l
      · simpa using h
      · cases he : WeightInfo.try_consume c l u with
        | error e => simpa [he] using h
        | ok v =>
          by_cases hv : l < v
          · simpa [he, hv] using h
          · simp only [he, hv, if_false]
            unfold meterInv dimInv at h ⊢
            simp only [hu, hl] at h
            simp only [Bool.and_eq_true, decide_eq_true_eq] at h ⊢
            exact ⟨h.1, Nat.not_lt.mp hv⟩
  | refundRefTime a =>
    unfold applyOp WeightInfo.refund_ref_time
    rcases hu : w.ref_time_usage with _ | u
    · simpa using h
    · unfold meterInv dimInv at h ⊢
      simp only [hu] at h
      rcases hl : w.ref_time_limit with _ | l
      · simp [hl] at h
      · simp only [hl] at h
        simp only [Bool.and_eq_true, decide_eq_true_eq] at h ⊢
        have h1 := h.1
        exact ⟨by omega, h.2⟩
  | refundProofSize a =>
    unfold applyOp WeightInfo.refund_proof_size
    rcases hu : w.proof_size_usage with _ | u
    · simpa using h
    · unfold meterInv dimInv at h ⊢
      simp only [hu] at h
      rcases hl : w.proof_size_limit with _ | l
      · simp [hl] at h
      · simp only [hl] at h
        simp only [Bool.and_eq_true, decide_eq_true_eq] at h ⊢
        have h2 := h.2
        exact ⟨h.1, by omega⟩

/-- A whole call sequence preserves the per-dimension invariants. -/
lemma meterInv_applyOps (ops : List MeterOp) (w : WeightInfo)
    (h : meterInv w = true) : meterInv (applyOps w ops) = true := by
  induction ops generalizing w with
  | nil => exact h
  | cons op ops ih => exact ih _ (meterInv_applyOp w op h)

/-- C5: from any meter returned by `new_from_weight_limit`, every sequence of
consume and refund calls keeps each dimension either fully tracked or fully
untracked, with usage within the limit whenever tracked. -/
theorem meter_invariants_preserved (owl : Option Weight) (w0 : WeightInfo)
    (h : WeightInfo.new_from_weight_limit owl = .ok (some w0))
    (ops : List MeterOp) :
    meterInv (applyOps w0 ops) = true :=
  meterInv_applyOps ops w0 (meterInv_new owl w0 h)

/-- Witness for C5 on a concrete meter and call sequence mixing successful
consumes, a failing consume and an over-refund. -/
theorem meter_invariants_preserved_witness :
    meterInv (applyOps ⟨some 10, some 20, some 0, some 0⟩
      [.consumeRefTime 7, .consumeProofSize 25, .refundRefTime 9,
       .consumeRefTime 10, .refundProofSize 3]) = true :=
  meter_invariants_preserved (some ⟨10, 20⟩) ⟨some 10, some 20, some 0, some 0⟩
    (by decide)
    [.consumeRefTime 7, .consumeProofSize 25, .refundRefTime 9,
     .consumeRefTime 10, .refundProofSize 3]

end Frontier

